import Mathlib

/-!
Verification of the bendsql client core against its specification.

The embedding covers the HTTP query driver of `core/src/client.rs`
(session state store, query retry loop, pagination, presigned upload
validation) and the FlightSQL driver of `driver/src/flight_sql.rs`
(first-frame schema handling and the pull-based frame row decoder).

Network transport is modelled by passing the sequence of server
responses explicitly; machine integers that the control flow inspects
(HTTP status codes, retry budgets, row counts) are modelled as `Nat`.
-/

namespace Bendsql

/-- Association list of string keys to string values, modelling the
ascending association list of a `BTreeMap<String, String>`. -/
abbrev SMap := List (String × String)

/-- Insert or replace a key in an `SMap`, modelling `BTreeMap::insert`. -/
def smInsert : SMap → String → String → SMap
  | [], k, v => [(k, v)]
  | (k0, v0) :: rest, k, v =>
    if k0 = k then (k, v) :: rest else (k0, v0) :: smInsert rest k v

/-- Look up a key in an `SMap`, modelling `BTreeMap::get`. -/
def smLookup : SMap → String → Option String
  | [], _ => none
  | (k0, v0) :: rest, k => if k0 = k then some v0 else smLookup rest k

/-- Modelled from the spec: the session descriptor of section 3
(`SessionConfig` of the request module, which is not under src/):
optional database plus an optional settings mapping. -/
structure SessionConfig where
  database : Option String
  settings : Option SMap
deriving DecidableEq

/-- Modelled from the spec: the embedded server error of the response
module (not under src/), carrying a numeric code and a message, as
constructed at its use sites in `client.rs`. -/
structure QueryError where
  code : Nat
  message : String
deriving DecidableEq

/-- Modelled from the spec: the Query Response of section 3 — schema,
current page of row data, optional continuation cursor, optional kill
URI, optional embedded error, optional session delta. Row data is kept
as decoded lists of string fields; the JSON decode itself is out of
scope per section 1. -/
structure QueryResponse where
  schema : List String
  data : List (List String)
  next_uri : Option String
  kill_uri : Option String
  error : Option QueryError
  session : Option SessionConfig
deriving DecidableEq

/-- Modelled from the spec: the error kinds of section 7 for the core
crate (the error module is not under src/); `transport` stands for the
passthrough transport errors, `serde` for passthrough serialization
errors. -/
inductive Err where
  | badArgument : String → Err
  | request : String → Err
  | invalidResponse : QueryError → Err
  | invalidPage : QueryError → Err
  | protocol : String → Err
  | parsing : String → Err
  | transport : String → Err
  | serde : String → Err
deriving DecidableEq

/-- Modelled from the spec: pagination hints of the Query Request
(section 3), as read by `make_pagination` in `client.rs`. -/
structure PaginationConfig where
  wait_time_secs : Option Int
  max_rows_in_buffer : Option Int
  max_rows_per_page : Option Int
deriving DecidableEq

/-- Modelled from the spec: the stage-attachment descriptor of the
Query Request (section 3), as built in `insert_with_stage`. -/
structure StageAttachmentConfig where
  location : String
  file_format_options : Option SMap
  copy_options : Option SMap
deriving DecidableEq

/-- Modelled from the spec: the Query Request of section 3 — sql text,
optional pagination hints, optional session snapshot, optional
stage-attachment descriptor. -/
structure QueryRequest where
  sql : String
  pagination : Option PaginationConfig
  session : Option SessionConfig
  stage_attachment : Option StageAttachmentConfig
deriving DecidableEq

/-- The connection-scoped mutable and configured state of `APIClient`
(`client.rs`): current database, current warehouse, generic session
settings, plus the tenant and pagination configuration read when
building requests. -/
structure Client where
  database : Option String
  warehouse : Option String
  session_settings : SMap
  tenant : Option String
  wait_time_secs : Option Int
  max_rows_in_buffer : Option Int
  max_rows_per_page : Option Int
deriving DecidableEq

/-- One settings entry of a session delta applied to the client state,
following the match in `handle_session`: the reserved key `warehouse`
is written to the dedicated warehouse slot, every other key is inserted
into the generic settings map. -/
def applySetting (c : Client) (kv : String × String) : Client :=
  if kv.1 = "warehouse" then { c with warehouse := some kv.2 }
  else { c with session_settings := smInsert c.session_settings kv.1 kv.2 }

/-- `APIClient::handle_session`: merge a server-pushed session delta
into the client state. The database is replaced only when the delta
specifies one; each settings entry is applied via `applySetting`. -/
def handle_session (session : Option SessionConfig) (c : Client) : Client :=
  match session with
  | none => c
  | some s =>
    let c1 := if s.database.isSome then { c with database := s.database } else c
    match s.settings with
    | none => c1
    | some kvs => kvs.foldl applySetting c1

/-- `APIClient::make_session`: the session snapshot embedded in the
next outbound request, or `none` when both database and settings are
empty. -/
def make_session (c : Client) : Option SessionConfig :=
  if c.database = none ∧ c.session_settings = [] then none
  else
    some { database := c.database,
           settings := if c.session_settings = [] then none else some c.session_settings }

/-- `APIClient::make_pagination`: the pagination hints embedded in the
next outbound request, or `none` when none are configured. -/
def make_pagination (c : Client) : Option PaginationConfig :=
  if c.wait_time_secs = none ∧ c.max_rows_in_buffer = none ∧ c.max_rows_per_page = none then
    none
  else
    some { wait_time_secs := c.wait_time_secs,
           max_rows_in_buffer := c.max_rows_in_buffer,
           max_rows_per_page := c.max_rows_per_page }

/-- `APIClient::make_headers`: tenant and warehouse headers, with the
warehouse read fresh from the store. -/
def make_headers (c : Client) : List (String × String) :=
  (match c.tenant with
   | some t => [("X-DATABEND-TENANT", t)]
   | none => []) ++
  (match c.warehouse with
   | some w => [("X-DATABEND-WAREHOUSE", w)]
   | none => [])

/-- One HTTP round trip answer from the server: numeric status, body
text (used for non-success statuses), and the decoded JSON payload
(used for success statuses; the JSON decode is out of scope). -/
structure HttpResp where
  status : Nat
  text : String
  payload : QueryResponse
deriving DecidableEq

/-- The request `query` and `insert_with_stage` build once before their
retry loop and resend unchanged on every attempt. -/
def mkQueryRequest (c : Client) (sql : String) (stage : Option StageAttachmentConfig) :
    QueryRequest :=
  { sql := sql, pagination := make_pagination c, session := make_session c,
    stage_attachment := stage }

/-- The status retry loop shared by `query` and `insert_with_stage`:
while the status is not 200, if it is 503 (service unavailable) and
retries remain, resend (consume the next server answer); otherwise stop
with the current answer. Returns the answer the loop stops at together
with the number of attempts sent. An exhausted response list models a
transport-level send failure. -/
def retryLoop (r : HttpResp) (rest : List HttpResp) (retries attempts : Nat) :
    (Except Err HttpResp) × Nat :=
  if r.status ≠ 200 then
    if r.status ≠ 503 ∨ retries = 0 then (.ok r, attempts)
    else
      match rest with
      | [] => (.error (.transport "send failed"), attempts)
      | r2 :: rest2 => retryLoop r2 rest2 (retries - 1) (attempts + 1)
  else (.ok r, attempts)

/-- `APIClient::query`: build the request once, send with a retry
budget of 3, surface a non-success final status as `InvalidResponse`
with the numeric status and body, surface an embedded error in a
success payload as `InvalidResponse`, and otherwise merge the session
delta before returning. The third component records each attempted
send of the (identical) request. -/
def query (c : Client) (sql : String) (responses : List HttpResp) :
    (Except Err QueryResponse) × Client × List QueryRequest :=
  let req := mkQueryRequest c sql none
  match responses with
  | [] => (.error (.transport "send failed"), c, [])
  | r :: rest =>
    match retryLoop r rest 3 1 with
    | (.error e, n) => (.error e, c, List.replicate n req)
    | (.ok final, n) =>
      if final.status ≠ 200 then
        (.error (.invalidResponse ⟨final.status, final.text⟩), c, List.replicate n req)
      else
        match final.payload.error with
        | some e => (.error (.invalidResponse e), c, List.replicate n req)
        | none =>
          (.ok final.payload, handle_session final.payload.session c, List.replicate n req)

/-- `APIClient::query_page`: one continuation-page fetch whose
transport round trip succeeded with answer `r`. A non-success status is
`InvalidResponse`; on success the session delta is merged first, and an
embedded error is then surfaced as `InvalidPage`. -/
def query_page (c : Client) (r : HttpResp) : (Except Err QueryResponse) × Client :=
  if r.status ≠ 200 then (.error (.invalidResponse ⟨r.status, r.text⟩), c)
  else
    let c1 := handle_session r.payload.session c
    match r.payload.error with
    | some e => (.error (.invalidPage e), c1)
    | none => (.ok r.payload, c1)

/-- The `while` loop of `APIClient::wait_for_query`: while the current
page carries a continuation cursor, fetch the next page and append the
newly fetched page data to the accumulator. The successive answers of
`query_page` are supplied in `pages`. -/
def wfqLoop (c : Client) (cur : QueryResponse) (data : List (List String))
    (pages : List HttpResp) : (Except Err (QueryResponse × List (List String))) × Client :=
  match cur.next_uri with
  | none => (.ok (cur, data), c)
  | some _ =>
    match pages with
    | [] => (.error (.transport "send failed"), c)
    | p :: rest =>
      match query_page c p with
      | (.error e, c1) => (.error e, c1)
      | (.ok next, c1) => wfqLoop c1 next (data ++ next.data) rest

/-- `APIClient::wait_for_query`: if the response carries a continuation
cursor, remember its schema and data, fetch the first continuation page
(whose data the source never appends), run the accumulation loop, and
return the last page with the remembered schema and the accumulated
data. -/
def wait_for_query (c : Client) (resp : QueryResponse) (pages : List HttpResp) :
    (Except Err QueryResponse) × Client :=
  match resp.next_uri with
  | none => (.ok resp, c)
  | some _ =>
    match pages with
    | [] => (.error (.transport "send failed"), c)
    | p :: rest =>
      match query_page c p with
      | (.error e, c1) => (.error e, c1)
      | (.ok first, c1) =>
        match wfqLoop c1 first resp.data rest with
        | (.error e, c2) => (.error e, c2)
        | (.ok (last, data), c2) =>
          (.ok { last with schema := resp.schema, data := data }, c2)

/-- `APIClient::insert_with_stage`: same send/retry loop as `query`
(with a stage attachment on the request), then `wait_for_query` on the
decoded payload. Unlike `query`, the session delta of the initial
response is never merged and the embedded error field is not checked. -/
def insert_with_stage (c : Client) (sql : String) (stage : StageAttachmentConfig)
    (responses pages : List HttpResp) : (Except Err QueryResponse) × Client :=
  let _req := mkQueryRequest c sql (some stage)
  match responses with
  | [] => (.error (.transport "send failed"), c)
  | r :: rest =>
    match retryLoop r rest 3 1 with
    | (.error e, _) => (.error e, c)
    | (.ok final, _) =>
      if final.status ≠ 200 then
        (.error (.invalidResponse ⟨final.status, final.text⟩), c)
      else wait_for_query c final.payload pages

/-- Modelled from the spec: the presigned response of section 3 —
method, header mapping, target URL (the presign module is not under
src/; `client.rs` constructs all three fields). -/
structure PresignedResponse where
  method : String
  headers : SMap
  url : String
deriving DecidableEq

/-- The PRESIGN statement text both drivers build. -/
def presign_sql (op stage : String) : String :=
  "PRESIGN " ++ op ++ " " ++ stage

/-- `APIClient::get_presigned_upload_url`, applied to the accumulated
result of the PRESIGN query: validate exactly one row, exactly three
columns, method `PUT`; parse column 1 as a JSON header object (the JSON
parser is passed in as the black-box collaborator `parseJson`); column
2 is the destination URL. -/
def get_presigned_upload_url (parseJson : String → Except String SMap)
    (resp : QueryResponse) : Except Err PresignedResponse :=
  if resp.data.length ≠ 1 then
    .error (.request "Empty response from server for presigned request")
  else
    let row := resp.data.getD 0 []
    if row.length ≠ 3 then
      .error (.request "Invalid response from server for presigned request")
    else
      let method := row.getD 0 ""
      if method ≠ "PUT" then
        .error (.request ("Invalid method for presigned upload request: " ++ method))
      else
        match parseJson (row.getD 1 "") with
        | .error e => .error (.serde e)
        | .ok headers => .ok ⟨method, headers, row.getD 2 ""⟩

/-- Modelled from the spec: the error kinds of section 7 for the
driver crate (its error module is not under src/; `flight_sql.rs`
constructs `Protocol`, `InvalidResponse` and `Parsing` with string
payloads); `transport` stands for passthrough transport errors. -/
inductive DriverErr where
  | badArgument : String → DriverErr
  | protocol : String → DriverErr
  | invalidResponse : String → DriverErr
  | parsing : String → DriverErr
  | transport : String → DriverErr
deriving DecidableEq

/-- Column metadata derived from the leading schema frame; its
contents are opaque to the decoder logic. -/
abbrev SchemaT := List String

/-- One frame of the flight stream after the leading schema frame,
already demultiplexed by its metadata tag: either a progress frame
(opaque decoded payload) or a data frame decoded into a row batch (the
columnar decode is the out-of-scope black box of section 1). -/
inductive Frame (α : Type) where
  | progress : Nat → Frame α
  | data : List α → Frame α
deriving DecidableEq

/-- The `FlightSQLRows` decoder state: the fixed schema, the FIFO
buffer of decoded rows not yet consumed, and the underlying transport
modelled as the remaining frames followed by an optional terminal
transport error (a tonic stream delivers its messages, then at most
one terminal error, then end of stream). -/
structure DecState (α : Type) where
  schema : SchemaT
  buffer : List α
  frames : List (Frame α)
  terminal : Option String
deriving DecidableEq

/-- One item produced by the decoder sequence: a row, a progress
event, or an error item. -/
inductive DecItem (α : Type) where
  | row : α → DecItem α
  | progress : Nat → DecItem α
  | fail : String → DecItem α
deriving DecidableEq

/-- The transport-polling arm of `poll_next`, entered only with an
empty buffer: a progress frame is yielded directly; a data frame has
its rows pushed into the (empty) buffer and the poll recurses, which
pops the front row or, for an empty batch, polls the transport again;
end of messages yields the terminal error once, then end of stream. -/
def pollFrames {α : Type} (sch : SchemaT) :
    List (Frame α) → Option String → Option (DecItem α × DecState α)
  | .progress p :: fs, t => some (.progress p, ⟨sch, [], fs, t⟩)
  | .data rows :: fs, t =>
    (match rows with
     | r :: buf => some (.row r, ⟨sch, buf, fs, t⟩)
     | [] => pollFrames sch fs t)
  | [], some e => some (.fail e, ⟨sch, [], [], none⟩)
  | [], none => none

/-- `impl Stream for FlightSQLRows::poll_next`: pop the front of the
row buffer if it is non-empty, otherwise poll the underlying
transport. `none` is end of the sequence. -/
def poll_next {α : Type} (s : DecState α) : Option (DecItem α × DecState α) :=
  match s.buffer with
  | r :: buf => some (.row r, ⟨s.schema, buf, s.frames, s.terminal⟩)
  | [] => pollFrames s.schema s.frames s.terminal

/-- Fuel-bounded iteration of `poll_next`; with fuel at least
`DecState.size` it drains the whole sequence. -/
def drainFuel {α : Type} : Nat → DecState α → List (DecItem α)
  | 0, _ => []
  | fuel + 1, s =>
    match poll_next s with
    | none => []
    | some (i, s1) => i :: drainFuel fuel s1

/-- Weight of a frame for the decoder termination measure. -/
def frameWeight {α : Type} : Frame α → Nat
  | .progress _ => 1
  | .data rows => rows.length + 1

/-- Upper bound on the number of items the decoder can still yield. -/
def DecState.size {α : Type} (s : DecState α) : Nat :=
  s.buffer.length + (s.frames.map frameWeight).sum +
    (match s.terminal with | some _ => 1 | none => 0)

/-- The full item sequence of the decoder, obtained by iterating
`poll_next` to exhaustion. -/
def drain {α : Type} (s : DecState α) : List (DecItem α) :=
  drainFuel s.size s

/-- Specification-side item list of one frame: a progress frame
contributes one progress event, a data frame its rows in order. -/
def frameItems {α : Type} : Frame α → List (DecItem α)
  | .progress p => [.progress p]
  | .data rows => rows.map .row

/-- Specification-side items of the transport tail: one error item for
a terminal transport error, nothing otherwise. -/
def terminalItems {α : Type} : Option String → List (DecItem α)
  | none => []
  | some e => [.fail e]

/-- Specification-side description of the decoder output, written from
the words of the spec (section 4.5): buffered rows first, then the
items of each remaining frame in arrival order, then the terminal
item. To be compared with `drain` of the embedded `poll_next`. -/
def decoderItemsSpec {α : Type} (s : DecState α) : List (DecItem α) :=
  s.buffer.map .row ++ (s.frames.map frameItems).flatten ++ terminalItems s.terminal

/-- Decode outcome of the leading frame header: a valid schema
definition, a message that is not a schema, or an invalid flatbuffer
(the flatbuffer parse itself is black-boxed). -/
inductive SchemaHeader where
  | valid : SchemaT → SchemaHeader
  | notSchema : SchemaHeader
  | invalidFlatbuffer : String → SchemaHeader
deriving DecidableEq

/-- Outcome of the first `try_next` on the flight stream: an item, end
of stream, or a transport failure. -/
inductive FirstPull where
  | item : SchemaHeader → FirstPull
  | ended : FirstPull
  | failed : String → FirstPull
deriving DecidableEq

/-- `FlightSQLRows::try_from_flight_data`: pull the first frame (a
transport failure propagates; an empty stream is a protocol error),
decode its header as the schema definition (failures are protocol
errors), and return the schema together with a decoder whose buffer is
empty and whose remaining frames are untouched. -/
def try_from_flight_data {α : Type} (first : FirstPull) (rest : List (Frame α))
    (t : Option String) : Except DriverErr (SchemaT × DecState α) :=
  match first with
  | .failed e => .error (.transport e)
  | .ended => .error (.protocol "No flight data in stream")
  | .item .notSchema => .error (.protocol "Invalid Message: Cannot get header as Schema")
  | .item (.invalidFlatbuffer msg) => .error (.protocol ("InvalidFlatbuffer: " ++ msg))
  | .item (.valid sch) => .ok (sch, ⟨sch, [], rest, t⟩)

/-- `FlightSQLConnection::query_iter_ext` after the execute step: a
missing ticket on the execution plan is a protocol error; otherwise
the ticket is redeemed for the frame stream, which is handed to
`try_from_flight_data`. -/
def query_iter_ext {α : Type} (ticket : Option String) (first : FirstPull)
    (rest : List (Frame α)) (t : Option String) :
    Except DriverErr (SchemaT × DecState α) :=
  match ticket with
  | none => .error (.protocol "Ticket is empty")
  | some _ => try_from_flight_data first rest t

/-- First row of the decoder item sequence as consumed by
`query_row` via `query_iter`: progress items are filtered out, an
error item surfaces, an exhausted sequence gives `none`. -/
def firstRowResult {α : Type} : List (DecItem α) → Except String (Option α)
  | [] => .ok none
  | .row r :: _ => .ok (some r)
  | .fail e :: _ => .error e
  | .progress _ :: rest => firstRowResult rest

/-- Modelled from the spec: conversion of a row into a
three-string-column tuple (the sql crate implementing `TryFrom` for
tuples is not under src/); per sections 4.3 and 6, a row of exactly
three string columns converts and any other arity is a value
conversion failure. -/
def tryInto3 : List String → Except String (String × String × String)
  | [a, b, c] => .ok (a, b, c)
  | row => .error ("invalid tuple size: " ++ toString row.length)

/-- `FlightSQLConnection::get_presigned_url`, applied to the item
sequence of the PRESIGN query: take the first row (an empty result is
`InvalidResponse`), convert it into a three-column tuple (failure is
`Parsing`), discard the header column and return the method and URL
with an always-empty header mapping. -/
def flight_get_presigned_url (items : List (DecItem (List String))) :
    Except DriverErr PresignedResponse :=
  match firstRowResult items with
  | .error e => .error (.transport e)
  | .ok none => .error (.invalidResponse "Empty response from server for presigned request")
  | .ok (some row) =>
    match tryInto3 row with
    | .error e => .error (.parsing e)
    | .ok (m, _, u) => .ok ⟨m, [], u⟩

/-! Helper lemmas about the settings map and session merging. -/

lemma smLookup_smInsert_self (m : SMap) (k v : String) :
    smLookup (smInsert m k v) k = some v := by
  induction m with
  | nil => simp [smInsert, smLookup]
  | cons kv rest ih =>
    obtain ⟨k0, v0⟩ := kv
    by_cases h : k0 = k
    · simp [smInsert, smLookup, h]
    · simp [smInsert, smLookup, h, ih]

lemma smLookup_smInsert_ne (m : SMap) {k' k : String} (v : String) (h : k' ≠ k) :
    smLookup (smInsert m k' v) k = smLookup m k := by
  induction m with
  | nil => simp [smInsert, smLookup, h]
  | cons kv rest ih =>
    obtain ⟨k0, v0⟩ := kv
    by_cases h0 : k0 = k'
    · subst h0
      simp [smInsert, smLookup, h]
    · by_cases h1 : k0 = k <;> simp [smInsert, smLookup, h0, h1, Ne.symm h, ih]

lemma applySetting_session_settings (c : Client) (kv : String × String) :
    (applySetting c kv).session_settings =
      if kv.1 = "warehouse" then c.session_settings
      else smInsert c.session_settings kv.1 kv.2 := by
  by_cases h : kv.1 = "warehouse" <;> simp [applySetting, h]

lemma foldl_applySetting_warehouse (kvs : SMap) :
    ∀ c : Client, smLookup (kvs.foldl applySetting c).session_settings "warehouse" =
      smLookup c.session_settings "warehouse" := by
  induction kvs with
  | nil => intro c; rfl
  | cons kv rest ih =>
    intro c
    rw [List.foldl_cons, ih]
    by_cases h : kv.1 = "warehouse"
    · simp [applySetting, h]
    · simp [applySetting, h, smLookup_smInsert_ne _ _ h]

lemma foldl_applySetting_isSome (kvs : SMap) :
    ∀ (c : Client) (k : String), (smLookup c.session_settings k).isSome →
      (smLookup (kvs.foldl applySetting c).session_settings k).isSome := by
  induction kvs with
  | nil => intro c k h; exact h
  | cons kv rest ih =>
    intro c k h
    rw [List.foldl_cons]
    refine ih _ k ?_
    by_cases hw : kv.1 = "warehouse"
    · simpa [applySetting, hw] using h
    · by_cases hk : kv.1 = k
      · subst hk
        simp [applySetting, hw, smLookup_smInsert_self]
      · simpa [applySetting, hw, smLookup_smInsert_ne _ _ hk] using h

lemma foldl_applySetting_not_mem (kvs : SMap) :
    ∀ (c : Client) (k : String), k ∉ kvs.map Prod.fst →
      smLookup (kvs.foldl applySetting c).session_settings k =
        smLookup c.session_settings k := by
  induction kvs with
  | nil => intro c k _; rfl
  | cons kv rest ih =>
    intro c k hk
    simp only [List.map_cons, List.mem_cons] at hk
    push_neg at hk
    rw [List.foldl_cons, ih _ k hk.2]
    by_cases hw : kv.1 = "warehouse"
    · simp [applySetting, hw]
    · have : kv.1 ≠ k := fun h => hk.1 h.symm
      simp [applySetting, hw, smLookup_smInsert_ne _ _ this]

lemma foldl_applySetting_upsert (kvs : SMap) :
    ∀ (c : Client) (k v : String), k ≠ "warehouse" → (k, v) ∈ kvs →
      (kvs.map Prod.fst).Nodup →
      smLookup (kvs.foldl applySetting c).session_settings k = some v := by
  induction kvs with
  | nil => intro c k v _ h _; cases h
  | cons kv rest ih =>
    intro c k v hk hmem hnd
    simp only [List.map_cons, List.nodup_cons] at hnd
    rcases List.mem_cons.mp hmem with heq | hmem'
    · subst heq
      have hnotin : k ∉ rest.map Prod.fst := by simpa using hnd.1
      rw [List.foldl_cons, foldl_applySetting_not_mem rest _ k hnotin]
      simp [applySetting, hk, smLookup_smInsert_self]
    · rw [List.foldl_cons]
      exact ih _ k v hk hmem' hnd.2

lemma handle_session_settings_eq (s : SessionConfig) (c : Client) :
    (handle_session (some s) c).session_settings =
      ((s.settings.getD []).foldl applySetting
        (if s.database.isSome then { c with database := s.database } else c)).session_settings := by
  by_cases hdb : s.database.isSome <;>
    cases hs : s.settings <;>
      simp [handle_session, hdb, hs]

lemma handle_session_db_step_settings (s : SessionConfig) (c : Client) :
    ((if s.database.isSome then { c with database := s.database } else c) :
      Client).session_settings = c.session_settings := by
  by_cases hdb : s.database.isSome <;> simp [hdb]

lemma foldl_applySetting_database (kvs : SMap) :
    ∀ c : Client, (kvs.foldl applySetting c).database = c.database := by
  induction kvs with
  | nil => intro c; rfl
  | cons kv rest ih =>
    intro c
    rw [List.foldl_cons, ih]
    by_cases h : kv.1 = "warehouse" <;> simp [applySetting, h]

/-- A default client state: no database, no warehouse, empty settings,
no tenant, no pagination configuration. -/
def client0 : Client := ⟨none, none, [], none, none, none, none⟩

/-- Sample client state used by the session-merge scenario: a database,
a warehouse and one pre-existing setting. -/
def clientC4 : Client := ⟨some "db1", some "wh1", [("a", "0")], none, none, none, none⟩

/-- The session delta of the spec scenario: settings with a warehouse
key and a generic key. -/
def deltaC4 : SessionConfig := ⟨none, some [("warehouse", "wh2"), ("x", "1")]⟩

/-- C4: merge replaces the database only when the delta specifies one;
the reserved settings key `warehouse` is written to the dedicated
warehouse slot and never into the generic settings map; every other
key is upserted without removing existing keys; after merging the
delta with settings warehouse=wh2 and x=1, the state attached to the
next request reflects both: the session snapshot carries x=1 and the
request headers carry the new warehouse read fresh from the slot. -/
theorem session_merge_routes_warehouse :
    (∀ c : Client, handle_session none c = c) ∧
    (∀ (c : Client) (s : SessionConfig), s.database = none →
        (handle_session (some s) c).database = c.database) ∧
    (∀ (c : Client) (s : SessionConfig) (d : String), s.database = some d →
        (handle_session (some s) c).database = some d) ∧
    (∀ (c : Client) (v : String),
        handle_session (some ⟨none, some [("warehouse", v)]⟩) c =
          { c with warehouse := some v }) ∧
    (∀ (c : Client) (s : SessionConfig),
        smLookup (handle_session (some s) c).session_settings "warehouse" =
          smLookup c.session_settings "warehouse") ∧
    (∀ (c : Client) (s : SessionConfig) (k : String),
        (smLookup c.session_settings k).isSome →
        (smLookup (handle_session (some s) c).session_settings k).isSome) ∧
    (∀ (c : Client) (kvs : SMap) (k v : String), k ≠ "warehouse" → (k, v) ∈ kvs →
        (kvs.map Prod.fst).Nodup →
        smLookup (handle_session (some ⟨none, some kvs⟩) c).session_settings k = some v) ∧
    ((handle_session (some deltaC4) clientC4).warehouse = some "wh2" ∧
      smLookup (handle_session (some deltaC4) clientC4).session_settings "x" = some "1" ∧
      smLookup (handle_session (some deltaC4) clientC4).session_settings "warehouse" = none ∧
      make_session (handle_session (some deltaC4) clientC4) =
        some ⟨some "db1", some [("a", "0"), ("x", "1")]⟩ ∧
      make_headers (handle_session (some deltaC4) clientC4) =
        [("X-DATABEND-WAREHOUSE", "wh2")]) := by
  refine ⟨fun c => rfl, ?_, ?_, ?_, ?_, ?_, ?_, by decide⟩
  · intro c s h
    cases hs : s.settings with
    | none => simp [handle_session, h, hs]
    | some kvs => simp [handle_session, h, hs, foldl_applySetting_database]
  · intro c s d h
    cases hs : s.settings with
    | none => simp [handle_session, h, hs]
    | some kvs => simp [handle_session, h, hs, foldl_applySetting_database]
  · intro c v
    simp [handle_session, applySetting]
  · intro c s
    rw [handle_session_settings_eq, foldl_applySetting_warehouse,
      handle_session_db_step_settings]
  · intro c s k h
    rw [handle_session_settings_eq]
    apply foldl_applySetting_isSome
    rw [handle_session_db_step_settings]
    exact h
  · intro c kvs k v hk hm hnd
    rw [handle_session_settings_eq]
    simp only [Option.getD_some]
    have hbase : ((if (⟨none, some kvs⟩ : SessionConfig).database.isSome then
        { c with database := (⟨none, some kvs⟩ : SessionConfig).database } else c) : Client) = c := by
      simp
    rw [hbase]
    exact foldl_applySetting_upsert kvs c k v hk hm hnd

/-- Witness for C4: the upsert and database conjuncts applied at
concrete inputs. -/
theorem session_merge_routes_warehouse_at_concrete :
    smLookup (handle_session (some ⟨none, some [("x", "1")]⟩) client0).session_settings "x" =
      some "1" ∧
    (handle_session (some (⟨none, some [("k", "v")]⟩ : SessionConfig)) client0).database =
      client0.database := by
  have h := session_merge_routes_warehouse
  exact ⟨h.2.2.2.2.2.2.1 client0 [("x", "1")] "x" "1" (by decide) (by decide) (by decide),
    h.2.1 client0 ⟨none, some [("k", "v")]⟩ rfl⟩

/-- An empty payload used for answers whose body is irrelevant. -/
def pay0 : QueryResponse := ⟨[], [], none, none, none, none⟩

/-- A service-unavailable answer. -/
def rUnavail : HttpResp := ⟨503, "unavailable", pay0⟩

/-- A successful payload with one row. -/
def payOK : QueryResponse := ⟨["s"], [["1"]], none, none, none, none⟩

/-- A successful answer. -/
def rSuccess : HttpResp := ⟨200, "", payOK⟩

lemma retryLoop_eq (r : HttpResp) (rest : List HttpResp) (retries attempts : Nat) :
    retryLoop r rest retries attempts =
      if r.status ≠ 200 then
        if r.status ≠ 503 ∨ retries = 0 then (.ok r, attempts)
        else
          match rest with
          | [] => (.error (.transport "send failed"), attempts)
          | r2 :: rest2 => retryLoop r2 rest2 (retries - 1) (attempts + 1)
      else (.ok r, attempts) := by
  cases rest <;> rfl

lemma retryLoop_200 {r : HttpResp} (rest : List HttpResp) {retries attempts : Nat}
    (h : r.status = 200) : retryLoop r rest retries attempts = (.ok r, attempts) := by
  rw [retryLoop_eq]; simp [h]

lemma retryLoop_other {r : HttpResp} (rest : List HttpResp) {retries attempts : Nat}
    (h200 : r.status ≠ 200) (h503 : r.status ≠ 503) :
    retryLoop r rest retries attempts = (.ok r, attempts) := by
  rw [retryLoop_eq]; simp [h200, h503]

lemma retryLoop_exhausted {r : HttpResp} (rest : List HttpResp) {attempts : Nat}
    (h : r.status = 503) : retryLoop r rest 0 attempts = (.ok r, attempts) := by
  rw [retryLoop_eq]; simp [h]

lemma retryLoop_resend {r : HttpResp} (r2 : HttpResp) (rest2 : List HttpResp)
    {retries attempts : Nat} (h : r.status = 503) (hr : retries ≠ 0) :
    retryLoop r (r2 :: rest2) retries attempts =
      retryLoop r2 rest2 (retries - 1) (attempts + 1) := by
  rw [retryLoop_eq]; simp [h, hr]

/-- C2: `query` resends the identical request while the status is 503
and retries remain, with a budget of 3 retries: two 503 answers
followed by success make it succeed on the 3rd attempt; four
consecutive 503 answers exhaust the budget and surface as an
`InvalidResponse` carrying the numeric status and body; any other
non-success status is terminal immediately with the same error shape
after a single attempt. -/
theorem query_retry_policy :
    (∀ (c : Client) (sql : String) (r1 r2 r3 : HttpResp) (rest : List HttpResp),
        r1.status = 503 → r2.status = 503 → r3.status = 200 → r3.payload.error = none →
        query c sql (r1 :: r2 :: r3 :: rest) =
          (.ok r3.payload, handle_session r3.payload.session c,
            List.replicate 3 (mkQueryRequest c sql none))) ∧
    (∀ (c : Client) (sql : String) (r1 r2 r3 r4 : HttpResp) (rest : List HttpResp),
        r1.status = 503 → r2.status = 503 → r3.status = 503 → r4.status = 503 →
        query c sql (r1 :: r2 :: r3 :: r4 :: rest) =
          (.error (.invalidResponse ⟨503, r4.text⟩), c,
            List.replicate 4 (mkQueryRequest c sql none))) ∧
    (∀ (c : Client) (sql : String) (r1 : HttpResp) (rest : List HttpResp),
        r1.status ≠ 200 → r1.status ≠ 503 →
        query c sql (r1 :: rest) =
          (.error (.invalidResponse ⟨r1.status, r1.text⟩), c,
            [mkQueryRequest c sql none])) := by
  refine ⟨?_, ?_, ?_⟩
  · intro c sql r1 r2 r3 rest h1 h2 h3 herr
    have e1 := @retryLoop_resend r1 r2 (r3 :: rest) 3 1 h1 (by decide)
    have e2 := @retryLoop_resend r2 r3 rest 2 2 h2 (by decide)
    have e3 := @retryLoop_200 r3 rest 1 3 h3
    simp [query, e1, e2, e3, h3, herr]
  · intro c sql r1 r2 r3 r4 rest h1 h2 h3 h4
    have e1 := @retryLoop_resend r1 r2 (r3 :: r4 :: rest) 3 1 h1 (by decide)
    have e2 := @retryLoop_resend r2 r3 (r4 :: rest) 2 2 h2 (by decide)
    have e3 := @retryLoop_resend r3 r4 rest 1 3 h3 (by decide)
    have e4 := @retryLoop_exhausted r4 rest 4 h4
    simp [query, e1, e2, e3, e4, h4]
  · intro c sql r1 rest h1 h2
    have e1 := @retryLoop_other r1 rest 3 1 h1 h2
    simp [query, e1, h1]

/-- Witness for C2: the three retry scenarios at concrete inputs. -/
theorem query_retry_policy_at_concrete :
    query client0 "SELECT 1" [rUnavail, rUnavail, rSuccess] =
      (.ok payOK, handle_session payOK.session client0,
        List.replicate 3 (mkQueryRequest client0 "SELECT 1" none)) ∧
    query client0 "SELECT 1" [rUnavail, rUnavail, rUnavail, rUnavail] =
      (.error (.invalidResponse ⟨503, "unavailable"⟩), client0,
        List.replicate 4 (mkQueryRequest client0 "SELECT 1" none)) ∧
    query client0 "SELECT 1" [⟨500, "boom", pay0⟩] =
      (.error (.invalidResponse ⟨500, "boom"⟩), client0,
        [mkQueryRequest client0 "SELECT 1" none]) := by
  have h := query_retry_policy
  refine ⟨h.1 client0 "SELECT 1" rUnavail rUnavail rSuccess [] rfl rfl rfl rfl, ?_, ?_⟩
  · exact h.2.1 client0 "SELECT 1" rUnavail rUnavail rUnavail rUnavail [] rfl rfl rfl rfl
  · exact h.2.2 client0 "SELECT 1" ⟨500, "boom", pay0⟩ [] (by decide) (by decide)

/-- A session delta and an embedded error carried by a continuation
page answer. -/
def deltaC5 : SessionConfig := ⟨some "db2", none⟩

/-- A sample embedded server error. -/
def qerrC5 : QueryError := ⟨1001, "boom"⟩

/-- A success-status page answer carrying both a session delta and an
embedded server error. -/
def pageErrC5 : HttpResp := ⟨200, "", ⟨[], [], none, none, some qerrC5, some deltaC5⟩⟩

/-- C5: on a successful continuation round trip, `query_page` merges
the session delta first and then surfaces an embedded server error as
`InvalidPage` — a kind distinct from the `InvalidResponse` kind that
`query` returns for an embedded error on the initial request (where no
merge happens) — and otherwise returns the page with the delta
merged. -/
theorem query_page_merges_then_flags_invalid_page :
    (∀ (c : Client) (r : HttpResp) (e : QueryError), r.status = 200 →
        r.payload.error = some e →
        query_page c r = (.error (.invalidPage e), handle_session r.payload.session c)) ∧
    (∀ (c : Client) (r : HttpResp), r.status = 200 → r.payload.error = none →
        query_page c r = (.ok r.payload, handle_session r.payload.session c)) ∧
    (∀ (c : Client) (sql : String) (r : HttpResp) (rest : List HttpResp) (e : QueryError),
        r.status = 200 → r.payload.error = some e →
        (query c sql (r :: rest)).1 = .error (.invalidResponse e) ∧
        (query c sql (r :: rest)).2.1 = c) ∧
    (∀ e1 e2 : QueryError, Err.invalidPage e1 ≠ Err.invalidResponse e2) := by
  refine ⟨?_, ?_, ?_, by intro e1 e2; simp⟩
  · intro c r e hs herr
    simp [query_page, hs, herr]
  · intro c r hs herr
    simp [query_page, hs, herr]
  · intro c sql r rest e hs herr
    have e1 := @retryLoop_200 r rest 3 1 hs
    constructor <;> simp [query, e1, hs, herr]

/-- Witness for C5: the merge-then-`InvalidPage` behavior and the
contrasting `InvalidResponse` of `query`, at a concrete page. -/
theorem query_page_merges_then_flags_invalid_page_at_concrete :
    query_page client0 pageErrC5 =
      (.error (.invalidPage qerrC5), handle_session pageErrC5.payload.session client0) ∧
    (query client0 "S" [pageErrC5]).1 = .error (.invalidResponse qerrC5) ∧
    (query client0 "S" [pageErrC5]).2.1 = client0 := by
  have h := query_page_merges_then_flags_invalid_page
  exact ⟨h.1 client0 pageErrC5 qerrC5 rfl rfl,
    (h.2.2.1 client0 "S" pageErrC5 [] qerrC5 rfl rfl).1,
    (h.2.2.1 client0 "S" pageErrC5 [] qerrC5 rfl rfl).2⟩

/-- A session delta whose merge visibly changes the default client. -/
def deltaC10 : SessionConfig := ⟨some "db9", some [("x", "1")]⟩

/-- A sample stage attachment. -/
def stage0 : StageAttachmentConfig := ⟨"@s1", none, none⟩

/-- A success answer carrying a session delta and no continuation
cursor. -/
def rDeltaC10 : HttpResp := ⟨200, "", ⟨["s"], [], none, none, none, some deltaC10⟩⟩

/-- C10: `insert_with_stage` never merges the session delta of the
initial query response — with no continuation cursor the store comes
back unchanged — unlike `query`, which merges the delta before
returning; the delta used in the witness really changes the store. -/
theorem insert_with_stage_keeps_store :
    (∀ (c : Client) (sql : String) (st : StageAttachmentConfig) (r : HttpResp)
        (rest pages : List HttpResp), r.status = 200 → r.payload.next_uri = none →
        insert_with_stage c sql st (r :: rest) pages = (.ok r.payload, c)) ∧
    (∀ (c : Client) (sql : String) (r : HttpResp) (rest : List HttpResp),
        r.status = 200 → r.payload.error = none →
        (query c sql (r :: rest)).2.1 = handle_session r.payload.session c) ∧
    handle_session (some deltaC10) client0 ≠ client0 := by
  refine ⟨?_, ?_, by decide⟩
  · intro c sql st r rest pages hs hnone
    have e1 := @retryLoop_200 r rest 3 1 hs
    simp [insert_with_stage, e1, hs, wait_for_query, hnone]
  · intro c sql r rest hs herr
    have e1 := @retryLoop_200 r rest 3 1 hs
    simp [query, e1, hs, herr]

/-- Witness for C10: an `insert_with_stage` whose initial response
carries a session delta and no cursor leaves the store unchanged. -/
theorem insert_with_stage_keeps_store_at_concrete :
    insert_with_stage client0 "INSERT INTO t VALUES" stage0 [rDeltaC10] [] =
      (.ok rDeltaC10.payload, client0) :=
  insert_with_stage_keeps_store.1 client0 "INSERT INTO t VALUES" stage0 rDeltaC10 [] []
    rfl rfl

/-- A black-box JSON header parser instance that always succeeds with
an empty mapping. -/
def pjEmpty : String → Except String SMap := fun _ => .ok []

/-- C6: the presigned-upload result is validated to exactly one row of
exactly three columns — any other row or column count is a `Request`
error with a descriptive message — and column 0 must equal PUT, any
other method being a descriptive `Request` error; on success column 1
is parsed as a JSON header object and column 2 is the destination
URL. -/
theorem presigned_upload_result_validation :
    (∀ (pj : String → Except String SMap) (resp : QueryResponse), resp.data.length ≠ 1 →
        get_presigned_upload_url pj resp =
          .error (.request "Empty response from server for presigned request")) ∧
    (∀ (pj : String → Except String SMap) (resp : QueryResponse) (row : List String),
        resp.data = [row] → row.length ≠ 3 →
        get_presigned_upload_url pj resp =
          .error (.request "Invalid response from server for presigned request")) ∧
    (∀ (pj : String → Except String SMap) (resp : QueryResponse) (m hj u : String),
        resp.data = [[m, hj, u]] → m ≠ "PUT" →
        get_presigned_upload_url pj resp =
          .error (.request ("Invalid method for presigned upload request: " ++ m))) ∧
    (∀ (pj : String → Except String SMap) (resp : QueryResponse) (hj u : String)
        (hdrs : SMap), resp.data = [["PUT", hj, u]] → pj hj = .ok hdrs →
        get_presigned_upload_url pj resp = .ok ⟨"PUT", hdrs, u⟩) := by
  refine ⟨?_, ?_, ?_, ?_⟩
  · intro pj resp h
    simp [get_presigned_upload_url, h]
  · intro pj resp row hd hlen
    simp [get_presigned_upload_url, hd, hlen]
  · intro pj resp m hj u hd hm
    simp [get_presigned_upload_url, hd, hm]
  · intro pj resp hj u hdrs hd hpj
    simp [get_presigned_upload_url, hd, hpj]

/-- Witness for C6: the four validation outcomes at concrete PRESIGN
results — two rows, a two-column row, a GET method, and a valid PUT
triple. -/
theorem presigned_upload_result_validation_at_concrete :
    get_presigned_upload_url pjEmpty ⟨[], [["PUT", "x", "u"], ["PUT", "x", "u"]],
        none, none, none, none⟩ =
      .error (.request "Empty response from server for presigned request") ∧
    get_presigned_upload_url pjEmpty ⟨[], [["PUT", "x"]], none, none, none, none⟩ =
      .error (.request "Invalid response from server for presigned request") ∧
    get_presigned_upload_url pjEmpty ⟨[], [["GET", "x", "u"]], none, none, none, none⟩ =
      .error (.request ("Invalid method for presigned upload request: " ++ "GET")) ∧
    get_presigned_upload_url pjEmpty ⟨[], [["PUT", "x", "u"]], none, none, none, none⟩ =
      .ok ⟨"PUT", [], "u"⟩ := by
  have h := presigned_upload_result_validation
  exact ⟨h.1 pjEmpty _ (by decide),
    h.2.1 pjEmpty _ ["PUT", "x"] rfl (by decide),
    h.2.2.1 pjEmpty _ "GET" "x" "u" rfl (by decide),
    h.2.2.2 pjEmpty _ "x" "u" [] rfl rfl⟩

/-- A success-status continuation page with given rows and cursor. -/
def pageC1 (rows : List (List String)) (next : Option String) : HttpResp :=
  ⟨200, "", ⟨[], rows, next, none, none, none⟩⟩

/-- The initial response of the pagination scenario: no rows yet, a
continuation cursor, and the original schema. -/
def respC1 : QueryResponse := ⟨["orig"], [], some "u1", none, none, none⟩

/-- The three continuation pages: 10 rows with a cursor, 10 rows with
a cursor, 0 rows without a cursor. -/
def pagesC1 : List HttpResp :=
  [pageC1 (List.replicate 10 ["a"]) (some "u2"),
   pageC1 (List.replicate 10 ["b"]) (some "u3"),
   pageC1 [] none]

/-- The response `wait_for_query` actually accumulates on the
10/10/0 scenario: only the second page rows survive. -/
def outC1 : QueryResponse := ⟨["orig"], List.replicate 10 ["b"], none, none, none, none⟩

/-- C1 (evaluation at the failing input): on an initial response with
a cursor followed by pages of 10, 10 and 0 rows where only the third
page lacks a cursor, `wait_for_query` returns 10 rows — the rows of
the first fetched page are dropped, because the loop overwrites that
page before appending its data — instead of the 20 accumulated rows
the claim requires; the original schema is retained. -/
theorem wait_for_query_drops_first_fetched_page :
    (wait_for_query client0 respC1 pagesC1).1 = .ok outC1 ∧
    outC1.data.length = 10 ∧
    outC1.schema = respC1.schema ∧
    ["a"] ∉ outC1.data := by
  exact ⟨rfl, rfl, rfl, by decide⟩

/-! Helper lemmas about the decoder: every pulled item preserves the
schema, decreases the termination measure, and peels exactly the head
of the specification-side item list. -/

lemma pollFrames_schema {α : Type} (fs : List (Frame α)) :
    ∀ (sch : SchemaT) (t : Option String) (i : DecItem α) (s2 : DecState α),
      pollFrames sch fs t = some (i, s2) → s2.schema = sch := by
  induction fs with
  | nil =>
    intro sch t i s2 h
    cases t with
    | none => simp [pollFrames] at h
    | some e =>
      simp [pollFrames] at h
      rw [← h.2]
  | cons f fs' ih =>
    intro sch t i s2 h
    cases f with
    | progress p =>
      simp [pollFrames] at h
      rw [← h.2]
    | data rows =>
      cases rows with
      | nil => exact ih sch t i s2 (by simpa [pollFrames] using h)
      | cons r buf =>
        simp [pollFrames] at h
        rw [← h.2]

lemma poll_next_schema {α : Type} (s : DecState α) (i : DecItem α) (s2 : DecState α)
    (h : poll_next s = some (i, s2)) : s2.schema = s.schema := by
  obtain ⟨sch, buf, fs, t⟩ := s
  cases buf with
  | nil => exact pollFrames_schema fs sch t i s2 (by simpa [poll_next] using h)
  | cons r buf' =>
    simp [poll_next] at h
    rw [← h.2]

lemma pollFrames_size {α : Type} (fs : List (Frame α)) :
    ∀ (sch : SchemaT) (t : Option String) (i : DecItem α) (s2 : DecState α),
      pollFrames sch fs t = some (i, s2) →
      s2.size < (DecState.mk sch [] fs t).size := by
  induction fs with
  | nil =>
    intro sch t i s2 h
    cases t with
    | none => simp [pollFrames] at h
    | some e =>
      simp [pollFrames] at h
      rw [← h.2]
      simp [DecState.size]
  | cons f fs' ih =>
    intro sch t i s2 h
    cases f with
    | progress p =>
      simp [pollFrames] at h
      rw [← h.2]
      simp [DecState.size, frameWeight]
    | data rows =>
      cases rows with
      | nil =>
        have := ih sch t i s2 (by simpa [pollFrames] using h)
        calc s2.size < (DecState.mk sch [] fs' t).size := this
          _ < (DecState.mk sch [] (.data [] :: fs') t).size := by
              simp [DecState.size, frameWeight]
      | cons r buf =>
        simp [pollFrames] at h
        rw [← h.2]
        simp [DecState.size, frameWeight]
        omega

lemma poll_next_size {α : Type} (s : DecState α) (i : DecItem α) (s2 : DecState α)
    (h : poll_next s = some (i, s2)) : s2.size < s.size := by
  obtain ⟨sch, buf, fs, t⟩ := s
  cases buf with
  | nil => exact pollFrames_size fs sch t i s2 (by simpa [poll_next] using h)
  | cons r buf' =>
    simp [poll_next] at h
    rw [← h.2]
    simp [DecState.size]

lemma pollFrames_none_items {α : Type} (fs : List (Frame α)) :
    ∀ (sch : SchemaT) (t : Option String), pollFrames sch fs t = none →
      ((fs.map frameItems).flatten : List (DecItem α)) = [] ∧
        (terminalItems t : List (DecItem α)) = [] := by
  induction fs with
  | nil =>
    intro sch t h
    cases t with
    | none => exact ⟨rfl, rfl⟩
    | some e => simp [pollFrames] at h
  | cons f fs' ih =>
    intro sch t h
    cases f with
    | progress p => simp [pollFrames] at h
    | data rows =>
      cases rows with
      | nil =>
        have := ih sch t (by simpa [pollFrames] using h)
        simp [frameItems, this.1, this.2]
      | cons r buf => simp [pollFrames] at h

lemma poll_next_none_spec {α : Type} (s : DecState α) (h : poll_next s = none) :
    decoderItemsSpec s = [] := by
  obtain ⟨sch, buf, fs, t⟩ := s
  cases buf with
  | nil =>
    have := pollFrames_none_items fs sch t (by simpa [poll_next] using h)
    simp [decoderItemsSpec, this.1, this.2]
  | cons r buf' => simp [poll_next] at h

lemma pollFrames_spec_step {α : Type} (fs : List (Frame α)) :
    ∀ (sch : SchemaT) (t : Option String) (i : DecItem α) (s2 : DecState α),
      pollFrames sch fs t = some (i, s2) →
      decoderItemsSpec (DecState.mk sch [] fs t) = i :: decoderItemsSpec s2 := by
  induction fs with
  | nil =>
    intro sch t i s2 h
    cases t with
    | none => simp [pollFrames] at h
    | some e =>
      simp [pollFrames] at h
      rw [← h.1, ← h.2]
      simp [decoderItemsSpec, terminalItems]
  | cons f fs' ih =>
    intro sch t i s2 h
    cases f with
    | progress p =>
      simp [pollFrames] at h
      rw [← h.1, ← h.2]
      simp [decoderItemsSpec, frameItems]
    | data rows =>
      cases rows with
      | nil =>
        have := ih sch t i s2 (by simpa [pollFrames] using h)
        simpa [decoderItemsSpec, frameItems] using this
      | cons r buf =>
        simp [pollFrames] at h
        rw [← h.1, ← h.2]
        simp [decoderItemsSpec, frameItems]

lemma poll_next_spec_step {α : Type} (s : DecState α) (i : DecItem α) (s2 : DecState α)
    (h : poll_next s = some (i, s2)) :
    decoderItemsSpec s = i :: decoderItemsSpec s2 := by
  obtain ⟨sch, buf, fs, t⟩ := s
  cases buf with
  | nil => exact pollFrames_spec_step fs sch t i s2 (by simpa [poll_next] using h)
  | cons r buf' =>
    simp [poll_next] at h
    rw [← h.1, ← h.2]
    simp [decoderItemsSpec]

lemma drainFuel_spec {α : Type} :
    ∀ (n : Nat) (s : DecState α) (fuel : Nat), s.size ≤ n → s.size ≤ fuel →
      drainFuel fuel s = decoderItemsSpec s := by
  intro n
  induction n with
  | zero =>
    intro s fuel hn _
    have hz : s.size = 0 := Nat.le_zero.mp hn
    cases hp : poll_next s with
    | some v =>
      obtain ⟨i, s2⟩ := v
      have := poll_next_size s i s2 hp
      omega
    | none =>
      rw [poll_next_none_spec s hp]
      cases fuel with
      | zero => rfl
      | succ f => simp [drainFuel, hp]
  | succ n ih =>
    intro s fuel hn hf
    cases hp : poll_next s with
    | none =>
      rw [poll_next_none_spec s hp]
      cases fuel with
      | zero => rfl
      | succ f => simp [drainFuel, hp]
    | some v =>
      obtain ⟨i, s2⟩ := v
      have hlt := poll_next_size s i s2 hp
      cases fuel with
      | zero => omega
      | succ f =>
        rw [poll_next_spec_step s i s2 hp]
        simp only [drainFuel, hp]
        rw [ih s2 f (by omega) (by omega)]

lemma drain_items {α : Type} (s : DecState α) : drain s = decoderItemsSpec s :=
  drainFuel_spec s.size s s.size le_rfl le_rfl

/-- C3: on a frame stream whose post-schema frames are a 5-row data
frame, a progress frame and a 3-row data frame, the decoder yields
exactly the 5 rows, then one progress event, then the 3 rows; in
general it pops its internal row buffer before polling the underlying
stream, and its full output is the buffered rows followed by the items
of each frame in arrival order — rows never reordered within or
across batches, progress events kept in position. -/
theorem decoder_yields_in_order :
    (drain (⟨["c1"], [], [.data [1, 2, 3, 4, 5], .progress 0, .data [6, 7, 8]], none⟩ :
        DecState Nat) =
      [.row 1, .row 2, .row 3, .row 4, .row 5, .progress 0, .row 6, .row 7, .row 8]) ∧
    (∀ (α : Type) (sch : SchemaT) (r : α) (buf : List α) (fs : List (Frame α))
        (t : Option String),
        poll_next ⟨sch, r :: buf, fs, t⟩ = some (.row r, ⟨sch, buf, fs, t⟩)) ∧
    (∀ (α : Type) (s : DecState α), drain s = decoderItemsSpec s) :=
  ⟨rfl, fun _ _ _ _ _ _ => rfl, fun _ s => drain_items s⟩

/-- C7: the decoder sequence is finite and not restartable — at end of
transport every pull (any number of further pulls) yields no item, and
a terminal transport error is yielded as exactly one error item after
which the sequence ends. -/
theorem decoder_finite_not_restartable :
    (∀ (α : Type) (sch : SchemaT), poll_next (⟨sch, [], [], none⟩ : DecState α) = none) ∧
    (∀ (α : Type) (sch : SchemaT) (fuel : Nat),
        drainFuel fuel (⟨sch, [], [], none⟩ : DecState α) = []) ∧
    (∀ (α : Type) (sch : SchemaT) (e : String),
        poll_next (⟨sch, [], [], some e⟩ : DecState α) =
          some (.fail e, ⟨sch, [], [], none⟩)) ∧
    (∀ (α : Type) (sch : SchemaT) (e : String),
        drain (⟨sch, [], [], some e⟩ : DecState α) = [.fail e]) := by
  refine ⟨fun _ _ => rfl, fun α sch fuel => ?_, fun _ _ _ => rfl, fun _ _ _ => rfl⟩
  cases fuel <;> rfl

/-- C8: the schema is derived exactly once from the first frame,
consumed before any item is produced, and handed back together with a
decoder whose buffer is empty and whose frames are untouched; a
missing ticket, an empty frame stream, and an undecodable first-frame
schema definition are each a Protocol error; pulling items never
changes the stored schema. -/
theorem schema_once_and_protocol_errors :
    (∀ (α : Type) (first : FirstPull) (rest : List (Frame α)) (t : Option String),
        query_iter_ext none first rest t =
          (.error (.protocol "Ticket is empty") :
            Except DriverErr (SchemaT × DecState α))) ∧
    (∀ (α : Type) (tk : String) (rest : List (Frame α)) (t : Option String),
        query_iter_ext (some tk) .ended rest t =
          (.error (.protocol "No flight data in stream") :
            Except DriverErr (SchemaT × DecState α))) ∧
    (∀ (α : Type) (msg : String) (rest : List (Frame α)) (t : Option String),
        try_from_flight_data (.item (.invalidFlatbuffer msg)) rest t =
          (.error (.protocol ("InvalidFlatbuffer: " ++ msg)) :
            Except DriverErr (SchemaT × DecState α))) ∧
    (∀ (α : Type) (rest : List (Frame α)) (t : Option String),
        try_from_flight_data (.item .notSchema) rest t =
          (.error (.protocol "Invalid Message: Cannot get header as Schema") :
            Except DriverErr (SchemaT × DecState α))) ∧
    (∀ (α : Type) (sch : SchemaT) (rest : List (Frame α)) (t : Option String),
        try_from_flight_data (.item (.valid sch)) rest t = .ok (sch, ⟨sch, [], rest, t⟩)) ∧
    (∀ (α : Type) (s : DecState α) (i : DecItem α) (s2 : DecState α),
        poll_next s = some (i, s2) → s2.schema = s.schema) :=
  ⟨fun _ _ _ _ => rfl, fun _ _ _ _ => rfl, fun _ _ _ _ => rfl, fun _ _ _ => rfl,
    fun _ _ _ _ => rfl, fun _ s i s2 h => poll_next_schema s i s2 h⟩

/-- Witness for C8: schema preservation applied at a concrete pull. -/
theorem schema_once_and_protocol_errors_at_concrete :
    (⟨["c"], [], [], none⟩ : DecState Nat).schema =
      (⟨["c"], [7], [], none⟩ : DecState Nat).schema :=
  schema_once_and_protocol_errors.2.2.2.2.2 Nat ⟨["c"], [7], [], none⟩ (.row 7)
    ⟨["c"], [], [], none⟩ rfl

/-- A two-row PRESIGN result as seen by the streaming driver. -/
def itemsC9 : List (DecItem (List String)) :=
  [.row ["PUT", "hblob", "u1"], .row ["GET", "g", "u2"]]

/-- C9 (counterexample): the streaming-protocol `get_presigned_url`
does not expect exactly one row — on a two-row result it succeeds with
the first row instead of failing the claimed single-row shape
validation that the HTTP path enforces. -/
theorem flight_presign_accepts_two_rows :
    flight_get_presigned_url itemsC9 = .ok ⟨"PUT", [], "u1"⟩ ∧ itemsC9.length = 2 :=
  ⟨rfl, rfl⟩

lemma tryInto3_len {row : List String} (h : row.length ≠ 3) :
    tryInto3 row = .error ("invalid tuple size: " ++ toString row.length) := by
  rcases row with _ | ⟨a, _ | ⟨b, _ | ⟨c, _ | ⟨d, tl⟩⟩⟩⟩
  · rfl
  · rfl
  · rfl
  · exfalso; simp at h
  · rfl

/-- C9 (amended): the streaming `get_presigned_url` issues a PRESIGN
statement and consumes only the first row of the result: an empty
result is an `InvalidResponse` error, the first row must convert to
exactly three string columns (otherwise a `Parsing` error), surplus
rows are ignored rather than rejected, a stream error surfaces, and
the headers mapping of a successful response is always empty as a
design limitation. -/
theorem flight_presign_first_row_behavior :
    presign_sql "UPLOAD" "@s1" = "PRESIGN UPLOAD @s1" ∧
    (∀ items : List (DecItem (List String)), firstRowResult items = .ok none →
        flight_get_presigned_url items =
          .error (.invalidResponse "Empty response from server for presigned request")) ∧
    (∀ (row : List String) (rest : List (DecItem (List String))), row.length ≠ 3 →
        flight_get_presigned_url (.row row :: rest) =
          .error (.parsing ("invalid tuple size: " ++ toString row.length))) ∧
    (∀ (m hj u : String) (rest : List (DecItem (List String))),
        flight_get_presigned_url (.row [m, hj, u] :: rest) = .ok ⟨m, [], u⟩) ∧
    (∀ (e : String) (rest : List (DecItem (List String))),
        flight_get_presigned_url (.fail e :: rest) = .error (.transport e)) := by
  refine ⟨by decide, ?_, ?_, fun _ _ _ _ => rfl, fun _ _ => rfl⟩
  · intro items h
    simp [flight_get_presigned_url, h]
  · intro row rest h
    simp [flight_get_presigned_url, firstRowResult, tryInto3_len h]

/-- Witness for C9 (amended): empty result and wrong-arity first row
at concrete inputs. -/
theorem flight_presign_first_row_behavior_at_concrete :
    flight_get_presigned_url ([] : List (DecItem (List String))) =
      .error (.invalidResponse "Empty response from server for presigned request") ∧
    flight_get_presigned_url [.row ["PUT", "x"]] =
      .error (.parsing ("invalid tuple size: " ++
        toString (["PUT", "x"] : List String).length)) := by
  have h := flight_presign_first_row_behavior
  exact ⟨h.2.1 [] rfl, h.2.2.1 ["PUT", "x"] [] (by decide)⟩

end Bendsql
